import Mathlib

/-!
Verification of the country-cache refresh service.

Shallow embedding of the application and infrastructure layers:
  - `src/app/domain/entities.py` (`Country`)
  - `src/app/application/services.py` (`FetchCountriesService`,
    `RefreshCountriesService`)
  - `src/app/infrastructure/repositories.py` (`RestCountriesAdapter`,
    `SQLCountryRepository`, `OpenERAPIAdapter`)

Modelling choices: Python floats become `Rat`; `datetime` timestamps become
`Nat` supplied by an explicit clock `clock : Nat → Nat` (the i-th value is
what `datetime.utcnow()` would return at the i-th entity construction of the
cycle); `random.uniform(1000, 2000)` becomes an oracle `factor : Nat → Rat`;
the outcome of one network interaction becomes an explicit
`Except Unit _` argument (`.error` = the request raised, `.ok` = the
decoded JSON body); a Python value that may be absent or `None` becomes an
`Option`; a raised Python exception propagating to the caller becomes a
`PyErr` in an `Except PyErr _` result, and a function that raises leaves
the store and the artifact exactly as they were.

A central fact of this codebase is modelled explicitly: the wired data
source (`RestCountriesAdapter.fetch_all_countries_raw`, and the port
`AbstractCountryDataSource.fetch_all_countries_raw`) is a plain synchronous
`def` returning a list, yet `FetchCountriesService.execute` immediately
`await`s its result; awaiting a list raises
`TypeError: object list can't be used in 'await' expression` on every
invocation, before validation, enrichment or persistence can run. Likewise
`_get_all_exchange_rates_async` builds its task list by *calling* the
synchronous `OpenERAPIAdapter.get_exchange_rate` one code at a time (the
first `DomainError` aborts the batch), and `asyncio.gather` then raises
`TypeError` on the non-awaitable float results (`return_exceptions=True`
only wraps exceptions of running awaitables); only the empty batch returns.
-/

/-- One entry of the `currencies` array of a raw REST-countries record:
a dict that may or may not carry a `code` key. -/
structure RawCurrency where
  code : Option String
deriving DecidableEq, Repr

/-- A raw record as returned by the data source (`item` in
`FetchCountriesService.execute`): every field is read with `.get`, so every
field is optional. -/
structure RawCountryRecord where
  name : Option String
  population : Option Int
  currencies : Option (List RawCurrency)
  capital : Option String
  region : Option String
  flag : Option String
deriving DecidableEq, Repr

/-- The persisted domain entity (`Country` in `src/app/domain/entities.py`).
`last_refreshed_at` is a non-optional field filled by a `default_factory`
calling `datetime.utcnow()` at construction time; the surrogate `id` plays
no role in any property here and is omitted. -/
structure Country where
  name : String
  population : Int
  currency_code : Option String
  exchange_rate : Option Rat
  estimated_gdp : Option Rat
  last_refreshed_at : Nat
  capital : Option String
  region : Option String
  flag_url : Option String
deriving DecidableEq, Repr

/-- A Python exception raised out of a service method: the dynamic
`TypeError`s of the broken async plumbing, or a `DomainError` raised by the
domain layer. -/
inductive PyErr where
  | typeError (msg : String)
  | domainError (msg : String)
deriving DecidableEq, Repr

/-- Python truthiness of the extracted `name` value:
`not name` is true exactly when the key is missing or the string is empty. -/
def nameTruthy : Option String → Bool
  | none => false
  | some s => !(s == "")

/-- `if not name or population is None or population < 0: continue`
a record survives validation when the name is truthy, the population key is
present and the population is not negative. -/
def keepRecord (item : RawCountryRecord) : Bool :=
  nameTruthy item.name &&
    match item.population with
    | none => false
    | some p => decide (0 ≤ p)

/-- Truthiness filter applied to `currencies[0].get("code")`: a missing key
or an empty string both count as "no code". -/
def codeTruthy : Option String → Option String
  | none => none
  | some s => if s == "" then none else some s

/-- `currencies and len(currencies) > 0 and currencies[0].get("code")`:
the first currency code of a raw record, when the currencies list is present,
non-empty, and its first entry carries a truthy code. -/
def firstCurrencyCode (item : RawCountryRecord) : Option String :=
  match item.currencies with
  | some (c :: _) => codeTruthy c.code
  | _ => none

/-- The pre-processing pass of `FetchCountriesService.execute`: collect the
set of distinct first-currency codes over all raw records (the Python `set`
is modelled as a first-occurrence-ordered duplicate-free list). -/
def uniqueCurrencyCodes (raw : List RawCountryRecord) : List String :=
  raw.foldl
    (fun acc item =>
      match firstCurrencyCode item with
      | some c => if c ∈ acc then acc else acc ++ [c]
      | none => acc)
    []

/-- `RestCountriesAdapter.fetch_all_countries_raw`: a plain synchronous
method; on a successful request the decoded JSON list is returned; a
`requests.exceptions.RequestException` is caught, logged, and an empty list
is returned instead of raising. -/
def fetch_all_countries_raw (net : Except Unit (List RawCountryRecord)) :
    List RawCountryRecord :=
  match net with
  | .ok data => data
  | .error _ => []

/-- `await` applied to the value of the synchronous data-source call:
`fetch_all_countries_raw` is a plain `def` returning a list (both in the
port and in the wired adapter), and awaiting a list object raises
`TypeError` whatever the list is. -/
def awaitSyncList (_data : List RawCountryRecord) :
    Except PyErr (List RawCountryRecord) :=
  .error (.typeError "object list can't be used in 'await' expression")

/-- The decoded JSON body of the Open ER API endpoint: the `result` field and
the `rates` mapping, each read with `.get`. -/
structure RateApiData where
  result : Option String
  rates : Option (List (String × Rat))
deriving DecidableEq, Repr

/-- `OpenERAPIAdapter.get_exchange_rate`: fetch the whole USD-base rate table
(`net` is that request's outcome), check the `result` field, special-case
`USD`, then look the upper-cased code up in the table. A failed request and
a missing code both surface as a raised `DomainError`, here `.error`. -/
def get_exchange_rate (net : Except Unit RateApiData) (target_code : String) :
    Except String Rat :=
  match net with
  | .error _ => .error "External currency service unavailable or failed"
  | .ok data =>
    if data.result ≠ some "success" then
      .error "External currency API reported failure."
    else if target_code = "USD" then
      .ok 1
    else
      match (data.rates.getD []).lookup target_code.toUpper with
      | some r => .ok r
      | none => .error ("Exchange rate not found for currency code: " ++ target_code)

/-- The task-list comprehension of
`FetchCountriesService._get_all_exchange_rates_async`:
`tasks = [self.currency_service.get_exchange_rate(code) for code in codes]`
*calls* the synchronous adapter method one code at a time (`oracle` gives
each call's outcome), so the first call that raises `DomainError` aborts
the whole comprehension; when every call returns, the list holds the plain
float results in order. -/
def buildRateTasks (oracle : String → Except Unit Rat) :
    List String → Except PyErr (List Rat)
  | [] => .ok []
  | c :: rest =>
    match oracle c with
    | .error _ => .error (.domainError "External currency service unavailable or failed")
    | .ok r =>
      match buildRateTasks oracle rest with
      | .error e => .error e
      | .ok rs => .ok (r :: rs)

/-- `FetchCountriesService._get_all_exchange_rates_async`: build the task
list (serial synchronous calls, first `DomainError` aborts), then
`await asyncio.gather(*tasks, return_exceptions=True)`. The tasks are plain
floats, and `gather` raises `TypeError` on a non-awaitable argument
(`return_exceptions=True` only wraps failures of running awaitables) — so
the per-code degradation loop below it is unreachable. Only for an empty
code set does `gather()` immediately yield `[]`, and the zip loop then
builds the empty mapping. -/
def getAllExchangeRatesAsync (oracle : String → Except Unit Rat)
    (codes : List String) : Except PyErr (List (String × Option Rat)) :=
  match buildRateTasks oracle codes with
  | .error e => .error e
  | .ok [] => .ok []
  | .ok (_ :: _) =>
      .error (.typeError "An asyncio.Future, a coroutine or an awaitable is required")

/-- Python `dict.get(code)` over the bulk-rates mapping: `none` both when
the key is absent and when the stored value is `None`. -/
def ratesGet (rates : List (String × Option Rat)) (code : String) : Option Rat :=
  match rates.lookup code with
  | some v => v
  | none => none

/-- The per-record body of the second pass of `FetchCountriesService.execute`:
currency extraction, rate lookup and GDP computation, then entity
construction. `gdpFactor` is the `random.uniform(1000, 2000)` draw available
to this record, `ts` the `datetime.utcnow()` default of its construction. -/
def mkCountry (cached : List (String × Option Rat)) (gdpFactor : Rat) (ts : Nat)
    (item : RawCountryRecord) : Country :=
  match firstCurrencyCode item with
  | none =>
      { name := item.name.getD ""
        population := item.population.getD 0
        currency_code := none
        exchange_rate := none
        estimated_gdp := some 0
        last_refreshed_at := ts
        capital := item.capital
        region := item.region
        flag_url := item.flag }
  | some code =>
      match ratesGet cached code with
      | some r =>
          { name := item.name.getD ""
            population := item.population.getD 0
            currency_code := some code
            exchange_rate := some r
            estimated_gdp := some (((item.population.getD 0 : Int) : Rat) * gdpFactor / r)
            last_refreshed_at := ts
            capital := item.capital
            region := item.region
            flag_url := item.flag }
      | none =>
          { name := item.name.getD ""
            population := item.population.getD 0
            currency_code := some code
            exchange_rate := none
            estimated_gdp := none
            last_refreshed_at := ts
            capital := item.capital
            region := item.region
            flag_url := item.flag }

/-- The validation/enrichment loop of the second pass: walk the raw records,
drop the ones failing validation, and append one constructed entity per
survivor. `k` counts the entities constructed so far and indexes the
random-factor and clock oracles. -/
def processAll (cached : List (String × Option Rat)) (factor : Nat → Rat)
    (clock : Nat → Nat) : Nat → List RawCountryRecord → List Country
  | _, [] => []
  | k, item :: rest =>
    if keepRecord item then
      mkCountry cached (factor k) (clock k) item ::
        processAll cached factor clock (k + 1) rest
    else
      processAll cached factor clock k rest

/-- `FetchCountriesService.execute`: the first statement is
`raw_data = await self.data_source.fetch_all_countries_raw()`. The wired
adapter is synchronous and returns a list, so the `await` raises `TypeError`
on every invocation; the code-collection pass, the bulk rate resolution and
the validation/enrichment loop (kept below as they appear in the source)
are never reached. -/
def fetchCountriesExecute (oracle : String → Except Unit Rat)
    (factor : Nat → Rat) (clock : Nat → Nat)
    (net : Except Unit (List RawCountryRecord)) :
    Except PyErr (List Country) :=
  match awaitSyncList (fetch_all_countries_raw net) with
  | .error e => .error e
  | .ok raw_data =>
    match getAllExchangeRatesAsync oracle (uniqueCurrencyCodes raw_data) with
    | .error e => .error e
    | .ok cached => .ok (processAll cached factor clock 0 raw_data)

/-- The state of the `countries` table, rows in insertion order. -/
structure DBState where
  rows : List Country
deriving DecidableEq, Repr

/-- `SQLCountryRepository.save_countries`: delete every existing row, insert
one row per entity, return how many were inserted. -/
def save_countries (st : DBState) (countries : List Country) : DBState × Nat :=
  ({ rows := countries }, countries.length)

/-- `func.max(CountryModel.last_refreshed_at)`: `NULL` on an empty table,
otherwise the greatest stored timestamp. -/
def maxTimestamp : List Country → Option Nat
  | [] => none
  | c :: rest =>
    match maxTimestamp rest with
    | none => some c.last_refreshed_at
    | some m => some (max c.last_refreshed_at m)

/-- `SQLCountryRepository.get_status`: row count and maximal
`last_refreshed_at` of the table. -/
def get_status (st : DBState) : Nat × Option Nat :=
  (st.rows.length, maxTimestamp st.rows)

/-- The `filters` dict built by the router: a key is present only when the
corresponding query parameter was supplied. -/
structure Filters where
  region : Option String := none
  currency : Option String := none
deriving DecidableEq, Repr

/-- The WHERE clauses of `SQLCountryRepository.get_countries`:
`CountryModel.region == filters["region"]` and
`CountryModel.currency_code == filters["currency"]`, i.e. SQL `=` string
comparison (`NULL = v` is not satisfied). -/
def matchesFilters (f : Filters) (c : Country) : Bool :=
  (match f.region with
   | none => true
   | some v => c.region == some v) &&
  (match f.currency with
   | none => true
   | some v => c.currency_code == some v)

/-- Stable insertion of a row into a list ordered by the relation `r`
(`r a b` = "a may come before b"). -/
def orderedInsertRow (r : Country → Country → Bool) (a : Country) :
    List Country → List Country
  | [] => [a]
  | b :: l => if r a b then a :: b :: l else b :: orderedInsertRow r a l

/-- Stable sort of the result set by the relation `r`. -/
def sortRowsBy (r : Country → Country → Bool) (l : List Country) : List Country :=
  l.foldr (orderedInsertRow r) []

/-- The ordering of `ORDER BY estimated_gdp DESC NULLS FIRST`
(`CountryModel.estimated_gdp.desc().nullsfirst()`): a `NULL` GDP row comes
before every row, and non-`NULL` rows are ordered by value descending. -/
def gdpDescNullsFirstLe (a b : Country) : Bool :=
  match a.estimated_gdp, b.estimated_gdp with
  | none, _ => true
  | some _, none => false
  | some x, some y => y ≤ x

/-- The ordering of `ORDER BY population DESC`
(`CountryModel.population.desc()`). -/
def popDescLe (a b : Country) : Bool :=
  b.population ≤ a.population

/-- `SQLCountryRepository.get_countries`: apply the filters, then the sort —
only `"gdp_desc"` and `"pop_desc"` are recognized, any other value (or no
value) adds no ORDER BY, leaving the rows in table order. -/
def get_countries (f : Filters) (sort_by : Option String) (st : DBState) :
    List Country :=
  let models := st.rows.filter (matchesFilters f)
  if sort_by = some "gdp_desc" then sortRowsBy gdpDescNullsFirstLe models
  else if sort_by = some "pop_desc" then sortRowsBy popDescLe models
  else models

/-- `SQLCountryRepository.get_country_by_name`:
`query.filter(CountryModel.name == name).first()`, `None` when no row has
exactly that name. -/
def get_country_by_name (name : String) (st : DBState) : Option Country :=
  (st.rows.filter fun c => c.name == name).head?

/-- The arguments handed to
`PillowImageAdapter.generate_summary_image` by the refresh orchestrator. -/
structure Summary where
  total_countries : Nat
  top_gdp_countries : List (String × Option Rat)
  last_refreshed_at : Nat
deriving DecidableEq, Repr

/-- What one call of `RefreshCountriesService.execute` leaves behind: the
value it returns or the exception it raises, the table contents afterwards,
and the summary artifact on disk afterwards. -/
structure RefreshResult where
  result : Except PyErr Nat
  db : DBState
  image : Option Summary
deriving Repr

/-- The `top_gdp` local of `RefreshCountriesService.execute`: read the rows
back sorted by `"gdp_desc"`, keep the first five, and project name and
estimated GDP for the renderer. -/
def refreshTopGdp (st1 : DBState) : List (String × Option Rat) :=
  ((get_countries {} (some "gdp_desc") st1).take 5).map
    fun c => (c.name, c.estimated_gdp)

/-- `RefreshCountriesService.execute`: `await` the fetch service; that call
raises `TypeError` on every invocation (see `fetchCountriesExecute`) and
the exception propagates out of `execute`, so the persistence replace, the
status read, the top-5 read and the render gate below are never reached —
the table and the artifact are left exactly as they were. The post-fetch
sequence is kept as it appears in the source: replace the table, recompute
the status, and regenerate the summary image only when the recomputed
last-refresh timestamp is truthy (a `datetime` is always truthy, so exactly
when it is not `None`). -/
def refreshExecute (oracle : String → Except Unit Rat) (factor : Nat → Rat)
    (clock : Nat → Nat) (net : Except Unit (List RawCountryRecord))
    (st : DBState) (image : Option Summary) : RefreshResult :=
  match fetchCountriesExecute oracle factor clock net with
  | .error e => { result := .error e, db := st, image := image }
  | .ok countries =>
    match (get_status (save_countries st countries).1).2 with
    | some t =>
        { result := .ok (save_countries st countries).2
          db := (save_countries st countries).1
          image := some
            { total_countries := (get_status (save_countries st countries).1).1
              top_gdp_countries := refreshTopGdp (save_countries st countries).1
              last_refreshed_at := t } }
    | none =>
        { result := .ok (save_countries st countries).2
          db := (save_countries st countries).1
          image := image }

/-! ## Claim C4 -/

/-- The oracle of the concrete bulk-resolution scenario: the individual
lookup for `"AAA"` raises `DomainError`, every other code's lookup returns
the rate 2. -/
def oracleAB : String → Except Unit Rat :=
  fun c => if c = "AAA" then .error () else .ok 2

/-- Claim C4 evaluated at the failing inputs: for the batch
`{AAA (failing), BBB (succeeding)}` the serial task-building call for `AAA`
raises `DomainError` and aborts the whole batch — `BBB`'s value is never
returned or used, the opposite of the claimed isolation; and even the
all-succeeding batch `{BBB}` dies in `asyncio.gather` with a `TypeError` on
the non-awaitable float results. Only the empty code set yields a (trivial)
mapping, so the bulk resolver never returns an entry for any requested
code. -/
theorem bulk_rate_resolution_aborts_batch :
    getAllExchangeRatesAsync oracleAB ["AAA", "BBB"]
      = Except.error
          (PyErr.domainError "External currency service unavailable or failed") ∧
    getAllExchangeRatesAsync oracleAB ["BBB"]
      = Except.error
          (PyErr.typeError "An asyncio.Future, a coroutine or an awaitable is required") ∧
    getAllExchangeRatesAsync oracleAB [] = Except.ok [] :=
  ⟨rfl, rfl, rfl⟩

/-! ## Claim C5 -/

/-- Counterexample for C5: with the network down (the request raises), the
single-code resolver fails even for `"USD"` — the network fetch is performed
before the `USD` special case, so `USD` does not resolve to 1.0 without a
network call. -/
theorem usd_fails_when_network_down :
    get_exchange_rate (Except.error ()) "USD"
        = Except.error "External currency service unavailable or failed" ∧
    get_exchange_rate (Except.error ()) "USD" ≠ Except.ok 1 := by
  constructor
  · rfl
  · intro h
    exact Except.noConfusion h

/-- Claim C5 (amended): the resolver always performs the network fetch first;
when that fetch succeeds and the API body reports success, `"USD"` resolves
to 1.0 regardless of the fetched rates table — but when the fetch raises,
even `"USD"` fails. -/
theorem usd_resolves_to_one_after_successful_fetch (data : RateApiData)
    (h : data.result = some "success") :
    get_exchange_rate (Except.ok data) "USD" = Except.ok 1 := by
  simp [get_exchange_rate, h]

/-- Witness for the amended C5 at a concrete successful response body. -/
theorem usd_resolves_to_one_after_successful_fetch_witness :
    get_exchange_rate (Except.ok { result := some "success", rates := none }) "USD"
      = Except.ok 1 :=
  usd_resolves_to_one_after_successful_fetch
    { result := some "success", rates := none } rfl

/-! ## Claim C2 -/

/-- The concrete enrichment scenario of the spec: one raw record `Xland`
with population 1000 and currency `XYZ`. -/
def rawX : List RawCountryRecord :=
  [{ name := some "Xland", population := some 1000,
     currencies := some [{ code := some "XYZ" }],
     capital := some "Xcity", region := some "Xregion", flag := none }]

/-- A deterministic rate oracle resolving `XYZ` to 2 and failing elsewhere. -/
def oracleX : String → Except Unit Rat :=
  fun c => if c = "XYZ" then .ok 2 else .error ()

/-- Claim C2 evaluated at the failing input: even with a well-formed raw
record whose code the resolver would map to 2, the fetch service produces no
enriched record — its first `await` of the synchronous data source raises
`TypeError` before the second pass runs, so the claimed three-way case split
describes a loop the program never reaches. -/
theorem enrichment_second_pass_never_runs :
    fetchCountriesExecute oracleX (fun _ => 1500) (fun _ => 7) (Except.ok rawX)
      = Except.error
          (PyErr.typeError "object list can't be used in 'await' expression") :=
  rfl

/-! ## Claim C3 -/

/-- A raw list holding one record that validation would drop (negative
population) and one it would keep. -/
def rawMixed : List RawCountryRecord :=
  [{ name := some "Zland", population := some (-5), currencies := none,
     capital := none, region := none, flag := none },
   { name := some "Yland", population := some 500, currencies := some [],
     capital := none, region := none, flag := none }]

/-- Claim C3 evaluated at the failing input: with one invalid and one valid
raw record upstream, the fetch service filters nothing and passes nothing
downstream — it raises `TypeError` at its first `await` before the
validation loop runs, so no output (filtered or otherwise) is ever
produced. -/
theorem validation_loop_never_runs :
    fetchCountriesExecute oracleX (fun _ => 1500) (fun _ => 7) (Except.ok rawMixed)
      = Except.error
          (PyErr.typeError "object list can't be used in 'await' expression") :=
  rfl

/-! ## Claim C6 -/

/-- Two currency-less raw records that validation would both keep. -/
def rawTwo : List RawCountryRecord :=
  [{ name := some "Aland", population := some 10, currencies := none,
     capital := none, region := none, flag := none },
   { name := some "Bland", population := some 20, currencies := none,
     capital := none, region := none, flag := none }]

/-- Claim C6 evaluated at the failing input: a refresh over two valid raw
records persists no record at all — the fetch service raises `TypeError`
before any `Country` (and hence any `lastRefreshedAt`) is constructed, so
no cycle ever stamps persisted records with a shared cycle timestamp (and
the entity's `last_refreshed_at` is a per-instance `datetime.utcnow`
default, not a value set once per cycle). -/
theorem refresh_cycle_persists_no_records :
    refreshExecute oracleAB (fun _ => 1500) (fun i => i) (Except.ok rawTwo)
        { rows := [] } none
      = { result := Except.error
            (PyErr.typeError "object list can't be used in 'await' expression")
          db := { rows := [] }, image := none } :=
  rfl

/-! ## Claim C8 -/

theorem matchesFilters_eq_true_iff (f : Filters) (c : Country) :
    matchesFilters f c = true ↔
      ((∀ v, f.region = some v → c.region = some v) ∧
       (∀ v, f.currency = some v → c.currency_code = some v)) := by
  unfold matchesFilters
  cases hr : f.region <;> cases hc : f.currency <;> simp

/-- Claim C8 (amended): the region/currency filters match stored rows by
exact case-sensitive string equality (SQL `=` under the default binary
collation), and `get_country_by_name` returns the first row whose name
equals the requested name case-sensitively — `None` (mapped to `NotFound`
by the router) exactly when no row matches. -/
theorem query_filters_and_lookup_exact_match (f : Filters) (st : DBState)
    (name : String) :
    (∀ c : Country, c ∈ get_countries f none st ↔
      c ∈ st.rows ∧
        ((∀ v, f.region = some v → c.region = some v) ∧
         (∀ v, f.currency = some v → c.currency_code = some v))) ∧
    (get_country_by_name name st = none ↔ ∀ d ∈ st.rows, d.name ≠ name) ∧
    (∀ d, get_country_by_name name st = some d → d ∈ st.rows ∧ d.name = name) := by
  refine ⟨?_, ?_, ?_⟩
  · intro c
    have hq : get_countries f none st = st.rows.filter (matchesFilters f) := rfl
    rw [hq, List.mem_filter, matchesFilters_eq_true_iff]
  · unfold get_country_by_name
    rw [List.head?_eq_none_iff, List.filter_eq_nil_iff]
    constructor
    · intro h d hd hdn
      exact h d hd (by simp [hdn])
    · intro h d hd
      simp [h d hd]
  · intro d hd
    unfold get_country_by_name at hd
    have hmem := List.mem_of_mem_head? (by rw [hd]; exact rfl)
    rw [List.mem_filter] at hmem
    exact ⟨hmem.1, by simpa using hmem.2⟩

/-- A stored row used by the query-layer scenarios. -/
def ghana : Country :=
  { name := "Ghana", population := 100, currency_code := some "GHS",
    exchange_rate := some 10, estimated_gdp := some 5, last_refreshed_at := 3,
    capital := some "Accra", region := some "Africa", flag_url := none }

/-- Counterexample for C8: the stored row has region `"Africa"` and name
`"Ghana"`, yet filtering by region `"africa"` returns nothing and looking up
`"ghana"` finds nothing — matching is not case-insensitive. -/
theorem query_filters_not_case_insensitive :
    get_countries { region := some "africa" } none { rows := [ghana] } = [] ∧
    get_country_by_name "ghana" { rows := [ghana] } = none :=
  ⟨rfl, rfl⟩

/-- Witness for the amended C8: the exact-case lookup `"Ghana"` succeeds and
returns a stored row with that exact name. -/
theorem query_filters_and_lookup_exact_match_witness :
    ghana ∈ ({ rows := [ghana] } : DBState).rows ∧ ghana.name = "Ghana" :=
  (query_filters_and_lookup_exact_match {} { rows := [ghana] } "Ghana").2.2
    ghana rfl

/-! ## Claim C9 -/

/-- Claim C9 (amended): only `"gdp_desc"` and `"pop_desc"` are recognized
sort keys; for an unset or unrecognized sort parameter the repository adds
no ORDER BY at all, so the filtered rows come back in table (insertion)
order — there is no `name_asc` fallback. -/
theorem unrecognized_sort_keeps_table_order (f : Filters) (st : DBState)
    (sort_by : Option String)
    (h1 : sort_by ≠ some "gdp_desc") (h2 : sort_by ≠ some "pop_desc") :
    get_countries f sort_by st = st.rows.filter (matchesFilters f) := by
  unfold get_countries
  rw [if_neg h1, if_neg h2]

/-- Two rows stored in descending-name insertion order. -/
def rowB : Country :=
  { name := "B", population := 2, currency_code := none, exchange_rate := none,
    estimated_gdp := none, last_refreshed_at := 1, capital := none,
    region := none, flag_url := none }

/-- The second stored row, whose name precedes `rowB`'s alphabetically. -/
def rowA : Country :=
  { name := "A", population := 1, currency_code := none, exchange_rate := none,
    estimated_gdp := none, last_refreshed_at := 1, capital := none,
    region := none, flag_url := none }

/-- A table holding `rowB` before `rowA`. -/
def stBA : DBState := { rows := [rowB, rowA] }

/-- Counterexample for C9: with no sort parameter the rows come back as
`["B", "A"]` — the insertion order — which is not ordered by name
ascending. -/
theorem default_sort_is_not_name_asc :
    (get_countries {} none stBA).map Country.name = ["B", "A"] ∧
    ¬ List.Sorted (· ≤ ·) ((get_countries {} none stBA).map Country.name) := by
  refine ⟨rfl, ?_⟩
  intro h
  have hba : ("B" : String) ≤ "A" :=
    (List.sorted_cons.mp (by exact h)).1 "A" (List.Mem.head _)
  rw [String.le_iff_toList_le] at hba
  exact absurd hba (by decide)

/-- Witness for the amended C9: at a concrete unset sort parameter the
query returns exactly the filtered rows in table order. -/
theorem unrecognized_sort_keeps_table_order_witness :
    get_countries {} none stBA = stBA.rows.filter (matchesFilters {}) :=
  unrecognized_sort_keeps_table_order {} stBA none
    (by decide) (by decide)

/-! ## Claim C7 -/

/-- A stored row carrying a non-null estimated GDP of 5. -/
def gdpFive : Country :=
  { name := "Five", population := 10, currency_code := some "USD",
    exchange_rate := some 1, estimated_gdp := some 5, last_refreshed_at := 4,
    capital := none, region := none, flag_url := none }

/-- A stored row whose estimated GDP is `NULL` (rate resolution failed). -/
def gdpNull : Country :=
  { name := "Null", population := 20, currency_code := some "XXX",
    exchange_rate := none, estimated_gdp := none, last_refreshed_at := 4,
    capital := none, region := none, flag_url := none }

/-- Claim C7 evaluated at the failing input: reading the rows back with
`"gdp_desc"` (`estimated_gdp DESC NULLS FIRST`) puts the `NULL`-GDP row
*first*, so the top-5 slice taken for the summary artifact is headed by the
`NULL` row — contradicting the claimed "null GDP sorts last" (which is also
what the code's own comment says `nullsfirst` would do). -/
theorem top5_sorts_null_gdp_first :
    ((get_countries {} (some "gdp_desc") { rows := [gdpFive, gdpNull] }).take 5).map
        Country.estimated_gdp = [none, some 5] :=
  rfl

/-! ## Claim C1 -/

/-- The summary artifact present on disk before the failing refresh. -/
def imgPrev : Summary :=
  { total_countries := 1, top_gdp_countries := [("Ghana", some 5)],
    last_refreshed_at := 3 }

/-- Claim C1 evaluated at the failing input: with one pre-existing row and a
data-source request that raises a network error, the adapter swallows the
error and returns `[]`, and the refresh then raises
`TypeError` at the `await` of that synchronous call — not a
`SourceUnavailable` error. The abort happens before the delete step, so the
store does keep its row (row count 1 before and after) and the artifact is
untouched, but the surfaced error is never the claimed `SourceUnavailable`. -/
theorem network_failure_refresh_raises_typeerror :
    ({ rows := [ghana] } : DBState).rows.length = 1 ∧
    refreshExecute oracleAB (fun _ => 1500) (fun i => i) (Except.error ())
        { rows := [ghana] } (some imgPrev)
      = { result := Except.error
            (PyErr.typeError "object list can't be used in 'await' expression")
          db := { rows := [ghana] }, image := some imgPrev } :=
  ⟨rfl, rfl⟩

/-! ## Claim C10 -/

/-- Claim C10 evaluated at the failing input: the replace step and the
timestamp gate in front of the renderer are dead code — the orchestrator
propagates the fetch service's `TypeError` before `save_countries`,
`get_status` or the gate run, so there is never a "post-replace status";
the artifact survives unchanged on every invocation because the refresh
aborts earlier, not because of the timestamp check the claim describes. -/
theorem render_gate_unreachable :
    refreshExecute oracleAB (fun _ => 1500) (fun i => i) (Except.ok [])
        { rows := [ghana] } (some imgPrev)
      = { result := Except.error
            (PyErr.typeError "object list can't be used in 'await' expression")
          db := { rows := [ghana] }, image := some imgPrev } :=
  rfl
